import Mathlib

/-!
Shallow embedding of `src/GUI/TabCtrl.c` (tab-control helper for a Win32 GUI):
the page-local message loop (`TabPageMessageLoop`), keyboard navigation
(`TabCtrl_OnKeyDown`), the selection-change handler (`TabCtrl_OnSelChanged`),
the notification dispatcher (`Notify`), the two page-placement policies
(`CenterTabPage`, `StretchTabPage`) and the constructor (`New_TabControl`).

Window handles are modelled as natural numbers; Win32 `LONG`/`INT` quantities
as `Int`; external Win32 calls that only produce side effects on windows
(SetFocus, ShowWindow, SetWindowPos, PostMessage, ...) are modelled either as
explicit state updates on a visibility map or as recorded effect values.
-/

namespace TabCtrl

/-- Window handles, modelled as natural numbers. -/
abbrev HWND := Nat

/-- Win32 message number `WM_SHOWWINDOW` (0x0018). -/
def WM_SHOWWINDOW : Nat := 24

/-- Win32 message number `WM_KEYDOWN` (0x0100). -/
def WM_KEYDOWN : Nat := 256

/-- Win32 virtual-key code `VK_TAB` (0x09). -/
def VK_TAB : Nat := 9

/-- Win32 virtual-key code `VK_PRIOR` / page-up (0x21). -/
def VK_PRIOR : Nat := 33

/-- Win32 virtual-key code `VK_NEXT` / page-down (0x22). -/
def VK_NEXT : Nat := 34

/-- Win32 virtual-key code `VK_LEFT` (0x25). -/
def VK_LEFT : Nat := 37

/-- Win32 virtual-key code `VK_UP` (0x26). -/
def VK_UP : Nat := 38

/-- Win32 virtual-key code `VK_RIGHT` (0x27). -/
def VK_RIGHT : Nat := 39

/-- Win32 virtual-key code `VK_DOWN` (0x28). -/
def VK_DOWN : Nat := 40

/-- Base of tab-control notification codes (`TCN_FIRST`, -550). -/
def TCN_FIRST : Int := -550

/-- Notification code `TCN_KEYDOWN` (`TCN_FIRST - 0`). -/
def TCN_KEYDOWN : Int := TCN_FIRST - 0

/-- Notification code `TCN_SELCHANGE` (`TCN_FIRST - 1`). -/
def TCN_SELCHANGE : Int := TCN_FIRST - 1

/-- The fields of a Win32 `MSG` that `TabPageMessageLoop` inspects:
target window, message number, and `wParam`. -/
structure MSG where
  hwnd : HWND
  message : Nat
  wParam : Nat
deriving DecidableEq, Repr

/-- Outcome of one `GetMessage` call inside `TabPageMessageLoop`:
`err` stands for a -1 return (exception), `quit` for a 0 return
(a `WM_QUIT` was retrieved), `msg m` for a retrieved message. -/
inductive Fetch where
  | err
  | quit
  | msg (m : MSG)
deriving DecidableEq, Repr

/-- The loop-local state of `TabPageMessageLoop`: the `fFirstStop` flag and
the `hFirstStop` window recorded for Tab-wraparound detection.  `hFirstStop`
is an uninitialized C local, read only under `fFirstStop = true`. -/
structure LoopState where
  fFirstStop : Bool
  hFirstStop : HWND
deriving DecidableEq, Repr

/-- How a run of `TabPageMessageLoop` ended. -/
inductive LoopExit where
  /-- Retrieval `GetMessage` returned -1: plain `return`. -/
  | errorExit
  /-- A `WM_SHOWWINDOW` message with hide flag was retrieved: plain `return`.
  The retrieved message is carried for inspection. -/
  | hiddenExit (m : MSG)
  /-- The recorded first tab stop saw `VK_TAB` a second time: focus is moved
  to `focusTarget` (the resolved tab-strip handle) and the loop returns. -/
  | wrapExit (focusTarget : HWND)
  /-- Retrieval `GetMessage` returned 0 (quit requested): the `while` exits and
  `PostQuitMessage(0)` re-posts the quit request. -/
  | quitExit
  /-- The modelled message stream ran dry (a real `GetMessage` blocks, so
  this does not correspond to a C behaviour). -/
  | starve
deriving DecidableEq, Repr

/-- Result of a run of `TabPageMessageLoop`: the exit path taken and whether
`PostQuitMessage(0)` was issued on the way out. -/
structure LoopResult where
  exit : LoopExit
  postedQuit : Bool
deriving DecidableEq, Repr

/-- Resolution of the tab-strip handle performed at the wraparound exit:
`GetWindowLong(GetParent(msg.hwnd), GWL_USERDATA)`, falling back to
`m_lptc->hTab` when that user-data slot is null.  `tabFor` abstracts the
composed external lookup and `gTab` the global `m_lptc->hTab`. -/
def resolveTab (tabFor : HWND → Option HWND) (gTab : HWND) (w : HWND) : HWND :=
  match tabFor w with
  | some t => t
  | none => gTab

/-- The body of `TabPageMessageLoop`'s `while (status = GetMessage(...))`
loop, consuming a stream of `GetMessage` outcomes.  Mirrors
`src/GUI/TabCtrl.c` lines 521-568: a -1 status returns; a retrieved
`WM_SHOWWINDOW` with `wParam == FALSE` returns; a `WM_KEYDOWN`/`VK_TAB`
message records its window on first sight, and on seeing the recorded window
again sets focus to the tab strip and returns; everything else goes to
`IsDialogMessage` / `TranslateMessage` / `DispatchMessage` (no effect on the
loop's own state); a 0 status leaves the `while`, after which
`PostQuitMessage(0)` runs. -/
def loopGo (tabFor : HWND → Option HWND) (gTab : HWND) (st : LoopState) :
    List Fetch → LoopResult
  | [] => ⟨LoopExit.starve, false⟩
  | Fetch.err :: _ => ⟨LoopExit.errorExit, false⟩
  | Fetch.quit :: _ => ⟨LoopExit.quitExit, true⟩
  | Fetch.msg m :: rest =>
    if m.message = WM_SHOWWINDOW ∧ m.wParam = 0 then
      ⟨LoopExit.hiddenExit m, false⟩
    else if m.message = WM_KEYDOWN ∧ m.wParam = VK_TAB then
      if st.fFirstStop = false then
        loopGo tabFor gTab ⟨true, m.hwnd⟩ rest
      else if st.hFirstStop = m.hwnd then
        ⟨LoopExit.wrapExit (resolveTab tabFor gTab m.hwnd), false⟩
      else
        loopGo tabFor gTab st rest
    else
      loopGo tabFor gTab st rest

/-- Entry point `TabPageMessageLoop(hwnd)`: enters the loop with `fFirstStop = FALSE`
and `hFirstStop` uninitialized (its arbitrary initial content is the
parameter `junk`).  The `hwnd` parameter (the page the loop was entered
for) is used by the C code only as the `IsDialogMessage` target; it does
not influence the loop's control flow. -/
def TabPageMessageLoop (tabFor : HWND → Option HWND) (gTab junk hwnd : HWND)
    (stream : List Fetch) : LoopResult :=
  loopGo tabFor gTab ⟨false, junk⟩ stream

/-- One loop iteration viewed as a state step: `some st'` when processing
fetch outcome `f` from state `st` continues the loop in state `st'`, `none`
when it makes the loop exit. -/
def stepState (st : LoopState) : Fetch → Option LoopState
  | Fetch.err => none
  | Fetch.quit => none
  | Fetch.msg m =>
    if m.message = WM_SHOWWINDOW ∧ m.wParam = 0 then none
    else if m.message = WM_KEYDOWN ∧ m.wParam = VK_TAB then
      if st.fFirstStop = false then some ⟨true, m.hwnd⟩
      else if st.hFirstStop = m.hwnd then none
      else some st
    else some st

/-- Runs a prefix of the fetch stream through the loop: `some st'` when the
loop survives the whole prefix ending in state `st'`, `none` when it exits
somewhere inside the prefix. -/
def runThrough (st : LoopState) : List Fetch → Option LoopState
  | [] => some st
  | f :: rest =>
    match stepState st f with
    | some st' => runThrough st' rest
    | none => none

/-- An externally visible action performed by `TabCtrl_OnKeyDown` on the
tab strip, a page, or the page-local loop, recorded in call order. -/
inductive KeyEffect where
  /-- Call `TabCtrl_SetCurSel(hTab, i)`. -/
  | setCurSel (i : Int)
  /-- Call `TabCtrl_SetCurFocus(hTab, i)`. -/
  | setCurFocus (i : Int)
  /-- Call `SetFocus(page)`. -/
  | setFocusPage (h : HWND)
  /-- Call `FirstTabstop_SetFocus(page)`. -/
  | firstTabstopFocus (h : HWND)
  /-- Nested `TabPageMessageLoop(page)` entered (blocking until it exits). -/
  | enterLoop (h : HWND)
deriving DecidableEq, Repr

/-- Handler `TabCtrl_OnKeyDown` (`src/GUI/TabCtrl.c` lines 235-325) as the list of
effects it performs, given the strip orientation, the page-handle array
(`pages i` models `m_lptc->hTabPages[i]`), the strip's item count and
current selection, and the virtual-key code of the notification. -/
def TabCtrl_OnKeyDown (verticalTabs : Bool) (pages : Int → HWND)
    (itemCount currentSel : Int) (wVKey : Nat) : List KeyEffect :=
  if itemCount ≤ 1 then []
  else if verticalTabs then
    if wVKey = VK_PRIOR then
      if currentSel = 0 then []
      else [KeyEffect.setCurSel (currentSel - 1), KeyEffect.setCurFocus (currentSel - 1)]
    else if wVKey = VK_UP then
      if currentSel = 0 then []
      else [KeyEffect.setCurSel (currentSel - 1), KeyEffect.setCurFocus currentSel]
    else if wVKey = VK_NEXT then
      [KeyEffect.setCurSel (currentSel + 1), KeyEffect.setCurFocus (currentSel + 1)]
    else if wVKey = VK_DOWN then
      [KeyEffect.setCurSel (currentSel + 1), KeyEffect.setCurFocus currentSel]
    else if wVKey = VK_LEFT ∨ wVKey = VK_RIGHT then
      [KeyEffect.setFocusPage (pages currentSel),
       KeyEffect.firstTabstopFocus (pages currentSel),
       KeyEffect.enterLoop (pages currentSel)]
    else []
  else
    if wVKey = VK_NEXT then
      if currentSel = 0 then []
      else [KeyEffect.setCurSel (currentSel - 1), KeyEffect.setCurFocus (currentSel - 1)]
    else if wVKey = VK_LEFT then
      if currentSel = 0 then []
      else [KeyEffect.setCurSel (currentSel - 1), KeyEffect.setCurFocus currentSel]
    else if wVKey = VK_PRIOR then
      [KeyEffect.setCurSel (currentSel + 1), KeyEffect.setCurFocus (currentSel + 1)]
    else if wVKey = VK_RIGHT then
      [KeyEffect.setCurSel (currentSel + 1), KeyEffect.setCurFocus currentSel]
    else if wVKey = VK_UP ∨ wVKey = VK_DOWN then
      [KeyEffect.setFocusPage (pages currentSel),
       KeyEffect.firstTabstopFocus (pages currentSel),
       KeyEffect.enterLoop (pages currentSel)]
    else []

/-- The "previous direction" keys of `TabCtrl_OnKeyDown`'s case analysis:
`VK_PRIOR`/`VK_UP` for vertical strips, `VK_NEXT`/`VK_LEFT` for horizontal
ones. -/
abbrev prevDirKey (verticalTabs : Bool) (wVKey : Nat) : Prop :=
  if verticalTabs then wVKey = VK_PRIOR ∨ wVKey = VK_UP
  else wVKey = VK_NEXT ∨ wVKey = VK_LEFT

/-- The "next direction" keys of `TabCtrl_OnKeyDown`'s case analysis:
`VK_NEXT`/`VK_DOWN` for vertical strips, `VK_PRIOR`/`VK_RIGHT` for
horizontal ones. -/
abbrev nextDirKey (verticalTabs : Bool) (wVKey : Nat) : Prop :=
  if verticalTabs then wVKey = VK_NEXT ∨ wVKey = VK_DOWN
  else wVKey = VK_PRIOR ∨ wVKey = VK_RIGHT

/-- The tab-control aggregate state that `TabCtrl_OnSelChanged` and `Notify`
read and write: the strip's item count and current selection (strip-owned
widget state read through `TabCtrl_GetItemCount`/`TabCtrl_GetCurSel`), the
page-handle list `hTabPages`, the recorded visible page `hVisiblePage`, and
the visibility of each window (`ShowWindow` state). -/
structure TCState where
  itemCount : Int
  curSel : Int
  hTabPages : List HWND
  hVisiblePage : HWND
  visible : HWND → Bool

/-- Result of `TabCtrl_OnSelChanged`: the updated aggregate state, the
window the explicit `WM_SHOWWINDOW`(hide) notification was posted to, and
the `BOOL` return value. -/
structure SelChangedOut where
  state : TCState
  postedHideTo : HWND
  handled : Bool

/-- Handler `TabCtrl_OnSelChanged` (`src/GUI/TabCtrl.c` lines 586-607): read the
strip's current selection, hide the recorded visible page, post it a
`WM_SHOWWINDOW`(hide) notification, show the page at the read selection,
record that page as visible, return `TRUE`.  The visibility map reflects
the sequential hide-then-show (a later show wins over the earlier hide when
both target the same window). -/
def TabCtrl_OnSelChanged (s : TCState) : SelChangedOut :=
  let iSel := s.curSel
  let oldVisible := s.hVisiblePage
  let newPage := s.hTabPages.getD iSel.toNat 0
  { state :=
      { s with
        visible := fun h =>
          if h = newPage then true
          else if h = oldVisible then false
          else s.visible h
        hVisiblePage := newPage }
    postedHideTo := oldVisible
    handled := true }

/-- Effect of one `KeyEffect` on the aggregate state.  Only `setCurSel`
changes state the model tracks; what the external strip widget does with the
requested index is abstracted by `stripSet old requested`. -/
def applyKeyEffect (stripSet : Int → Int → Int) (s : TCState) (e : KeyEffect) :
    TCState :=
  match e with
  | KeyEffect.setCurSel i => { s with curSel := stripSet s.curSel i }
  | _ => s

/-- Result of `Notify`: the updated aggregate state, the effects performed
by `TabCtrl_OnKeyDown` (empty when it was not invoked or ignored the key),
the target of the posted hide notification when `TabCtrl_OnSelChanged` ran,
and the `BOOL` return value. -/
structure NotifyOut where
  state : TCState
  keyEffects : List KeyEffect
  postedHideTo : Option HWND
  handled : Bool

/-- Dispatcher `Notify` (`src/GUI/TabCtrl.c` lines 625-640): on `TCN_KEYDOWN` run
`TabCtrl_OnKeyDown`, then fall through to `TabCtrl_OnSelChanged` and return
its result; on `TCN_SELCHANGE` run `TabCtrl_OnSelChanged` and return its
result; on any other code do nothing and return `FALSE`. -/
def Notify (stripSet : Int → Int → Int) (verticalTabs : Bool) (s : TCState)
    (code : Int) (wVKey : Nat) : NotifyOut :=
  if code = TCN_KEYDOWN then
    let effs := TabCtrl_OnKeyDown verticalTabs
      (fun i => s.hTabPages.getD i.toNat 0) s.itemCount s.curSel wVKey
    let s' := List.foldl (applyKeyEffect stripSet) s effs
    let r := TabCtrl_OnSelChanged s'
    ⟨r.state, effs, some r.postedHideTo, r.handled⟩
  else if code = TCN_SELCHANGE then
    let r := TabCtrl_OnSelChanged s
    ⟨r.state, [], some r.postedHideTo, r.handled⟩
  else
    ⟨s, [], none, false⟩

/-- The invariant "exactly one page is visible and it is the recorded
visible page": the recorded page is in the page list and a listed page is
visible exactly when it is the recorded one. -/
def VisInv (s : TCState) : Prop :=
  s.hVisiblePage ∈ s.hTabPages ∧
  ∀ h, h ∈ s.hTabPages → (s.visible h = true ↔ h = s.hVisiblePage)

/-- A rectangle as populated by `TabControl_GetClientRect` and used by the
placement routines: `left`/`top` are the origin, and — per that function's
convention — `right` holds the WIDTH and `bottom` the HEIGHT. -/
structure Rect where
  left : Int
  top : Int
  right : Int
  bottom : Int
deriving DecidableEq, Repr

/-- The `x, y, cx, cy` arguments a placement routine passes to
`SetWindowPos`. -/
structure Placement where
  x : Int
  y : Int
  cx : Int
  cy : Int
deriving DecidableEq, Repr

/-- Placement `CenterTabPage` (`src/GUI/TabCtrl.c` lines 163-188): `rect` is the
target display area (origin + width/height) and `pageClient` the page's
client rectangle from `GetClientRect`.  The page keeps its natural size
`(right-left, bottom-top)`; on each axis where it is strictly smaller than
the target it is offset by half the difference, otherwise it sits at the
target's origin.  (The C `/` is truncating division, but both operands are
positive inside the guard, where it coincides with Lean's `Int` division.) -/
def CenterTabPage (rect pageClient : Rect) : Placement :=
  let w := pageClient.right - pageClient.left
  let h := pageClient.bottom - pageClient.top
  let x := if w < rect.right then rect.left + (rect.right - w) / 2 else rect.left
  let y := if h < rect.bottom then rect.top + (rect.bottom - h) / 2 else rect.top
  ⟨x, y, w, h⟩

/-- Placement `StretchTabPage` (`src/GUI/TabCtrl.c` lines 207-218): the page is moved
and sized to exactly the target display area; the page's own size is never
read. -/
def StretchTabPage (rect : Rect) : Placement :=
  ⟨rect.left, rect.top, rect.right, rect.bottom⟩

/-- Which placement routine `New_TabControl` invoked for a page. -/
inductive PlaceKind where
  | stretchCall
  | centerCall
deriving DecidableEq, Repr

/-- Per-index build effects of `New_TabControl`'s `for` loop, in call
order: created page handles, inserted tab-strip labels, placement calls. -/
structure BuildAcc where
  hTabPages : List HWND
  insertedLabels : List String
  placementCalls : List PlaceKind
deriving DecidableEq, Repr

/-- The first `n` iterations of `New_TabControl`'s `for` loop
(`src/GUI/TabCtrl.c` lines 732-748): iteration `i` inserts tab-strip item
`i` with label `tabNames i`, creates the page dialog (`alloc i` models the
handle returned by `CreateDialog`), and applies the configured placement
routine. -/
def buildPages (tabNames : Nat → String) (alloc : Nat → HWND)
    (fStretch : Bool) : Nat → BuildAcc
  | 0 => ⟨[], [], []⟩
  | n + 1 =>
    let acc := buildPages tabNames alloc fStretch n
    ⟨acc.hTabPages ++ [alloc n],
     acc.insertedLabels ++ [tabNames n],
     acc.placementCalls ++ [if fStretch then PlaceKind.stretchCall else PlaceKind.centerCall]⟩

/-- The fields of the `TABCTRL` aggregate populated by `New_TabControl`
that the construction claims are about, together with the recorded build
effects and the resulting page-visibility map. -/
structure ConstructedTC where
  tabPageCount : Nat
  hTabPages : List HWND
  insertedLabels : List String
  placementCalls : List PlaceKind
  blStretchTabs : Bool
  hVisiblePage : HWND
  visible : HWND → Bool

/-- The `m_lptc->tabPageCount` computation (`src/GUI/TabCtrl.c` lines 721-724):
walk the template-identifier array until the null entry. -/
def countTemplates : List (Option Nat) → Nat
  | [] => 0
  | none :: _ => 0
  | some _ :: rest => countTemplates rest + 1

/-- Constructor `New_TabControl` (`src/GUI/TabCtrl.c` lines 690-754): count the
templates, run the build loop once per index, then show the page at index 0
(`ShowWindow(hTabPages[0], SW_SHOW)`) and record it as the visible page.
Pages are created by `CreateDialog` without `WS_VISIBLE`, i.e. hidden, so
after construction a page is visible exactly when it is the shown first
page. -/
def New_TabControl (tabNames : Nat → String) (dlgNames : List (Option Nat))
    (alloc : Nat → HWND) (fStretch : Bool) : ConstructedTC :=
  let n := countTemplates dlgNames
  let acc := buildPages tabNames alloc fStretch n
  { tabPageCount := n
    hTabPages := acc.hTabPages
    insertedLabels := acc.insertedLabels
    placementCalls := acc.placementCalls
    blStretchTabs := fStretch
    hVisiblePage := acc.hTabPages.getD 0 0
    visible := fun h => h = acc.hTabPages.getD 0 0 }

/-- A concrete aggregate state used by witness theorems: two pages `10`,
`11`, page `10` recorded and shown, strip selection `0`. -/
def exState : TCState :=
  { itemCount := 2
    curSel := 0
    hTabPages := [10, 11]
    hVisiblePage := 10
    visible := fun h => h = 10 }

/-- A loop iteration that does not exit continues `loopGo` in the stepped
state. -/
theorem loopGo_step (tabFor : HWND → Option HWND) (gTab : HWND)
    (st st' : LoopState) (f : Fetch) (tail : List Fetch)
    (h : stepState st f = some st') :
    loopGo tabFor gTab st (f :: tail) = loopGo tabFor gTab st' tail := by
  cases f with
  | err => simp [stepState] at h
  | quit => simp [stepState] at h
  | msg m =>
    simp only [stepState] at h
    simp only [loopGo]
    by_cases h1 : m.message = WM_SHOWWINDOW ∧ m.wParam = 0
    · rw [if_pos h1] at h
      exact absurd h (by simp)
    · rw [if_neg h1] at h
      rw [if_neg h1]
      by_cases h2 : m.message = WM_KEYDOWN ∧ m.wParam = VK_TAB
      · rw [if_pos h2] at h
        rw [if_pos h2]
        by_cases h3 : st.fFirstStop = false
        · rw [if_pos h3] at h
          rw [if_pos h3]
          injection h with h4
          rw [h4]
        · rw [if_neg h3] at h
          rw [if_neg h3]
          by_cases h4 : st.hFirstStop = m.hwnd
          · rw [if_pos h4] at h
            exact absurd h (by simp)
          · rw [if_neg h4] at h
            rw [if_neg h4]
            injection h with h5
            rw [h5]
      · rw [if_neg h2] at h
        rw [if_neg h2]
        injection h with h5
        rw [h5]

/-- Surviving a prefix of the fetch stream lets `loopGo` resume on the rest
from the prefix's final state. -/
theorem loopGo_of_runThrough (tabFor : HWND → Option HWND) (gTab : HWND)
    (pre : List Fetch) :
    ∀ st st' tail, runThrough st pre = some st' →
      loopGo tabFor gTab st (pre ++ tail) = loopGo tabFor gTab st' tail := by
  induction pre with
  | nil =>
    intro st st' tail h
    simp only [runThrough, Option.some.injEq] at h
    rw [h]
    rfl
  | cons f rest ih =>
    intro st st' tail h
    simp only [runThrough] at h
    cases hs : stepState st f with
    | none => rw [hs] at h; exact absurd h (by simp)
    | some st1 =>
      rw [hs] at h
      rw [List.cons_append, loopGo_step tabFor gTab st st1 f _ hs]
      exact ih st1 st' tail h

/-- While `fFirstStop` is still false the (uninitialized) `hFirstStop`
content is never read: the loop's behaviour does not depend on it. -/
theorem loopGo_false_junk (tabFor : HWND → Option HWND) (gTab : HWND) :
    ∀ (s : List Fetch) (j j' : HWND),
      loopGo tabFor gTab ⟨false, j⟩ s = loopGo tabFor gTab ⟨false, j'⟩ s := by
  intro s
  induction s with
  | nil => intro j j'; rfl
  | cons f rest ih =>
    intro j j'
    cases f with
    | err => rfl
    | quit => rfl
    | msg m =>
      simp only [loopGo]
      by_cases h1 : m.message = WM_SHOWWINDOW ∧ m.wParam = 0
      · rw [if_pos h1, if_pos h1]
      · rw [if_neg h1, if_neg h1]
        by_cases h2 : m.message = WM_KEYDOWN ∧ m.wParam = VK_TAB
        · rw [if_pos h2, if_pos h2]
          simp
        · rw [if_neg h2, if_neg h2]
          exact ih j j'

/-- Whenever `loopGo` exits through the quit path it has re-posted the quit
request. -/
theorem loopGo_quit_posts (tabFor : HWND → Option HWND) (gTab : HWND) :
    ∀ (s : List Fetch) (st : LoopState),
      (loopGo tabFor gTab st s).exit = LoopExit.quitExit →
      (loopGo tabFor gTab st s).postedQuit = true := by
  intro s
  induction s with
  | nil => intro st h; simp [loopGo] at h
  | cons f rest ih =>
    intro st h
    cases f with
    | err => simp [loopGo] at h
    | quit => rfl
    | msg m =>
      simp only [loopGo] at h ⊢
      by_cases h1 : m.message = WM_SHOWWINDOW ∧ m.wParam = 0
      · rw [if_pos h1] at h
        exact absurd h (by simp)
      · rw [if_neg h1] at h
        rw [if_neg h1]
        by_cases h2 : m.message = WM_KEYDOWN ∧ m.wParam = VK_TAB
        · rw [if_pos h2] at h
          rw [if_pos h2]
          by_cases h3 : st.fFirstStop = false
          · rw [if_pos h3] at h
            rw [if_pos h3]
            exact ih _ h
          · rw [if_neg h3] at h
            rw [if_neg h3]
            by_cases h4 : st.hFirstStop = m.hwnd
            · rw [if_pos h4] at h
              exact absurd h (by simp)
            · rw [if_neg h4] at h
              rw [if_neg h4]
              exact ih _ h
        · rw [if_neg h2] at h
          rw [if_neg h2]
          exact ih _ h

/-- C1 (counterexample): the claim "a hide message is treated as an exit
signal only when it matches that page" is false — the loop entered for page
`5` also exits via the became-hidden path on a `WM_SHOWWINDOW`(hide)
message targeting window `99 ≠ 5`, because the code never compares the
message's window against the loop's page. -/
theorem C1_counterexample :
    (TabPageMessageLoop (fun _ => none) 7 0 5
        [Fetch.msg ⟨99, WM_SHOWWINDOW, 0⟩]).exit
      = LoopExit.hiddenExit ⟨99, WM_SHOWWINDOW, 0⟩ ∧ (99 : HWND) ≠ 5 := by
  decide

/-- C1 (amended): for every message stream, once the loop has survived a
prefix without exiting, retrieving a `WM_SHOWWINDOW` message with hide flag
(`wParam = FALSE`) makes `TabPageMessageLoop` return normally via the
became-hidden path, without re-posting quit — whatever window the message
targets, in particular the loop's own page (the message posted by
`TabCtrl_OnSelChanged`). -/
theorem C1_hide_message_stops_loop (tabFor : HWND → Option HWND)
    (gTab junk page : HWND) (pre rest : List Fetch) (st' : LoopState) (m : MSG)
    (hpre : runThrough ⟨false, junk⟩ pre = some st')
    (hmsg : m.message = WM_SHOWWINDOW) (hwp : m.wParam = 0) :
    TabPageMessageLoop tabFor gTab junk page (pre ++ Fetch.msg m :: rest)
      = ⟨LoopExit.hiddenExit m, false⟩ := by
  unfold TabPageMessageLoop
  rw [loopGo_of_runThrough tabFor gTab pre _ st' _ hpre]
  simp only [loopGo]
  rw [if_pos ⟨hmsg, hwp⟩]

/-- C1 witness: the loop entered for page `5` exits via the became-hidden
path on the hide message posted to page `5` itself, after surviving one
unrelated Tab message. -/
theorem C1_hide_message_stops_loop_witness :
    TabPageMessageLoop (fun _ => none) 7 0 5
        [Fetch.msg ⟨77, WM_KEYDOWN, VK_TAB⟩, Fetch.msg ⟨5, WM_SHOWWINDOW, 0⟩]
      = ⟨LoopExit.hiddenExit ⟨5, WM_SHOWWINDOW, 0⟩, false⟩ :=
  C1_hide_message_stops_loop (fun _ => none) 7 0 5
    [Fetch.msg ⟨77, WM_KEYDOWN, VK_TAB⟩] [] ⟨true, 77⟩ ⟨5, WM_SHOWWINDOW, 0⟩
    (by decide) rfl rfl

/-- C2: the loop's behaviour is independent of the uninitialized
`hFirstStop` content (flag and reference are effectively unset at entry);
after surviving a prefix, a `VK_TAB` key-down whose window is the first one
seen is recorded and the loop continues; a `VK_TAB` key-down on the
recorded window a second time moves focus to the (resolved) tab strip and
terminates the loop; a `VK_TAB` key-down on any other window leaves the
state unchanged and does not terminate the loop. -/
theorem C2_first_tab_stop_wraparound (tabFor : HWND → Option HWND)
    (gTab j j' page w w' : HWND) (pre rest : List Fetch) (st' : LoopState) :
    (∀ s, TabPageMessageLoop tabFor gTab j page s
        = TabPageMessageLoop tabFor gTab j' page s)
    ∧ (runThrough ⟨false, j⟩ pre = some st' →
        (st'.fFirstStop = false →
          TabPageMessageLoop tabFor gTab j page
              (pre ++ Fetch.msg ⟨w, WM_KEYDOWN, VK_TAB⟩ :: rest)
            = loopGo tabFor gTab ⟨true, w⟩ rest)
        ∧ (st'.fFirstStop = true → st'.hFirstStop = w →
          TabPageMessageLoop tabFor gTab j page
              (pre ++ Fetch.msg ⟨w, WM_KEYDOWN, VK_TAB⟩ :: rest)
            = ⟨LoopExit.wrapExit (resolveTab tabFor gTab w), false⟩)
        ∧ (st'.fFirstStop = true → st'.hFirstStop ≠ w' →
          TabPageMessageLoop tabFor gTab j page
              (pre ++ Fetch.msg ⟨w', WM_KEYDOWN, VK_TAB⟩ :: rest)
            = loopGo tabFor gTab st' rest)) := by
  constructor
  · intro s
    exact loopGo_false_junk tabFor gTab s j j'
  · intro hpre
    refine ⟨fun hf => ?_, fun hf hw => ?_, fun hf hw => ?_⟩
    · unfold TabPageMessageLoop
      rw [loopGo_of_runThrough tabFor gTab pre _ st' _ hpre]
      simp [loopGo, WM_SHOWWINDOW, WM_KEYDOWN, VK_TAB, hf]
    · unfold TabPageMessageLoop
      rw [loopGo_of_runThrough tabFor gTab pre _ st' _ hpre]
      simp [loopGo, WM_SHOWWINDOW, WM_KEYDOWN, VK_TAB, hf, hw]
    · unfold TabPageMessageLoop
      rw [loopGo_of_runThrough tabFor gTab pre _ st' _ hpre]
      simp [loopGo, WM_SHOWWINDOW, WM_KEYDOWN, VK_TAB, hf, hw]

/-- C2 witness: after window `3` is recorded as the first tab stop, a second
`VK_TAB` on window `3` ends the loop with focus moved to the tab strip
(handle `7`). -/
theorem C2_first_tab_stop_wraparound_witness :
    TabPageMessageLoop (fun _ => none) 7 0 5
        [Fetch.msg ⟨3, WM_KEYDOWN, VK_TAB⟩, Fetch.msg ⟨3, WM_KEYDOWN, VK_TAB⟩]
      = ⟨LoopExit.wrapExit 7, false⟩ :=
  (((C2_first_tab_stop_wraparound (fun _ => none) 7 0 0 5 3 4
      [Fetch.msg ⟨3, WM_KEYDOWN, VK_TAB⟩] [] ⟨true, 3⟩).2 (by decide)).2.1) rfl rfl

/-- C10: if, after surviving any prefix, message retrieval signals that the
process is exiting (`GetMessage` returns 0), the loop leaves its retrieval
loop via the quit path and re-posts the quit request
(`PostQuitMessage(0)`); moreover on every stream, whenever the loop exits
via the quit path the quit request has been re-posted. -/
theorem C10_quit_reposted (tabFor : HWND → Option HWND) (gTab junk page : HWND)
    (pre rest : List Fetch) (st' : LoopState)
    (hpre : runThrough ⟨false, junk⟩ pre = some st') :
    TabPageMessageLoop tabFor gTab junk page (pre ++ Fetch.quit :: rest)
        = ⟨LoopExit.quitExit, true⟩
    ∧ ∀ s, (TabPageMessageLoop tabFor gTab junk page s).exit = LoopExit.quitExit →
        (TabPageMessageLoop tabFor gTab junk page s).postedQuit = true := by
  constructor
  · unfold TabPageMessageLoop
    rw [loopGo_of_runThrough tabFor gTab pre _ st' _ hpre]
    rfl
  · intro s h
    exact loopGo_quit_posts tabFor gTab s _ h

/-- C10 witness: a quit signal arriving after one surviving message makes
the loop exit via the quit path with the quit request re-posted. -/
theorem C10_quit_reposted_witness :
    TabPageMessageLoop (fun _ => none) 7 0 5
        [Fetch.msg ⟨3, WM_KEYDOWN, VK_TAB⟩, Fetch.quit]
      = ⟨LoopExit.quitExit, true⟩ :=
  (C10_quit_reposted (fun _ => none) 7 0 5 [Fetch.msg ⟨3, WM_KEYDOWN, VK_TAB⟩] []
    ⟨true, 3⟩ (by decide)).1

/-- C9: when the strip's item count is at most 1, the keyboard-navigation
handler returns at once, performing no effect at all — no selection change,
no focus change, no entry into the page-local loop. -/
theorem C9_single_tab_ignores_keys (verticalTabs : Bool) (pages : Int → HWND)
    (itemCount currentSel : Int) (wVKey : Nat) (h : itemCount ≤ 1) :
    TabCtrl_OnKeyDown verticalTabs pages itemCount currentSel wVKey = [] := by
  unfold TabCtrl_OnKeyDown
  rw [if_pos h]

/-- C9 witness: with a single tab, even a next-direction key produces no
effect. -/
theorem C9_single_tab_ignores_keys_witness :
    TabCtrl_OnKeyDown false (fun _ => 0) 1 0 VK_RIGHT = [] :=
  C9_single_tab_ignores_keys false (fun _ => 0) 1 0 VK_RIGHT (by decide)

/-- C3: with a nonnegative current selection (and more than one tab), every
selection index passed to `TabCtrl_SetCurSel` is nonnegative; a
previous-direction key at selection 0 produces no effect and otherwise
requests selection `currentSel - 1`; a next-direction key always requests
selection `currentSel + 1`, with no upper-bound check. -/
theorem C3_selection_never_negative (verticalTabs : Bool) (pages : Int → HWND)
    (itemCount currentSel : Int) (wVKey : Nat)
    (hcs : 0 ≤ currentSel) (hic : 1 < itemCount) :
    (∀ i, KeyEffect.setCurSel i ∈
        TabCtrl_OnKeyDown verticalTabs pages itemCount currentSel wVKey → 0 ≤ i)
    ∧ (prevDirKey verticalTabs wVKey →
        (currentSel = 0 →
          TabCtrl_OnKeyDown verticalTabs pages itemCount currentSel wVKey = [])
        ∧ (currentSel ≠ 0 →
          KeyEffect.setCurSel (currentSel - 1) ∈
            TabCtrl_OnKeyDown verticalTabs pages itemCount currentSel wVKey))
    ∧ (nextDirKey verticalTabs wVKey →
        KeyEffect.setCurSel (currentSel + 1) ∈
          TabCtrl_OnKeyDown verticalTabs pages itemCount currentSel wVKey) := by
  have hni : ¬ itemCount ≤ 1 := by omega
  refine ⟨?_, ?_, ?_⟩
  · intro i hi
    unfold TabCtrl_OnKeyDown at hi
    rw [if_neg hni] at hi
    cases verticalTabs
    · split_ifs at hi <;> simp_all <;> omega
    · split_ifs at hi <;> simp_all <;> omega
  · intro hpk
    cases verticalTabs
    · simp only [prevDirKey, Bool.false_eq_true, if_false] at hpk
      refine ⟨fun h0 => ?_, fun hne => ?_⟩
      · rcases hpk with h | h <;>
          simp [TabCtrl_OnKeyDown, hni, h, h0, VK_PRIOR, VK_NEXT, VK_LEFT,
            VK_RIGHT, VK_UP, VK_DOWN]
      · rcases hpk with h | h <;>
          simp [TabCtrl_OnKeyDown, hni, h, hne, VK_PRIOR, VK_NEXT, VK_LEFT,
            VK_RIGHT, VK_UP, VK_DOWN]
    · simp only [prevDirKey, if_true] at hpk
      refine ⟨fun h0 => ?_, fun hne => ?_⟩
      · rcases hpk with h | h <;>
          simp [TabCtrl_OnKeyDown, hni, h, h0, VK_PRIOR, VK_NEXT, VK_LEFT,
            VK_RIGHT, VK_UP, VK_DOWN]
      · rcases hpk with h | h <;>
          simp [TabCtrl_OnKeyDown, hni, h, hne, VK_PRIOR, VK_NEXT, VK_LEFT,
            VK_RIGHT, VK_UP, VK_DOWN]
  · intro hnk
    cases verticalTabs
    · simp only [nextDirKey, Bool.false_eq_true, if_false] at hnk
      rcases hnk with h | h <;>
        simp [TabCtrl_OnKeyDown, hni, h, VK_PRIOR, VK_NEXT, VK_LEFT,
          VK_RIGHT, VK_UP, VK_DOWN]
    · simp only [nextDirKey, if_true] at hnk
      rcases hnk with h | h <;>
        simp [TabCtrl_OnKeyDown, hni, h, VK_PRIOR, VK_NEXT, VK_LEFT,
          VK_RIGHT, VK_UP, VK_DOWN]

/-- C3 witness: on a vertical strip with selection 0, the previous-direction
key `VK_PRIOR` is ignored outright. -/
theorem C3_selection_never_negative_witness :
    TabCtrl_OnKeyDown true (fun _ => 0) 3 0 VK_PRIOR = [] :=
  ((C3_selection_never_negative true (fun _ => 0) 3 0 VK_PRIOR (by decide)
      (by decide)).2.1 (by decide)).1 rfl

/-- Applying any sequence of key effects leaves every aggregate field but
the strip selection unchanged. -/
theorem foldl_applyKeyEffect_fields (stripSet : Int → Int → Int) :
    ∀ (effs : List KeyEffect) (s : TCState),
      (List.foldl (applyKeyEffect stripSet) s effs).hTabPages = s.hTabPages
      ∧ (List.foldl (applyKeyEffect stripSet) s effs).hVisiblePage = s.hVisiblePage
      ∧ (List.foldl (applyKeyEffect stripSet) s effs).itemCount = s.itemCount
      ∧ (List.foldl (applyKeyEffect stripSet) s effs).visible = s.visible := by
  intro effs
  induction effs with
  | nil => intro s; exact ⟨rfl, rfl, rfl, rfl⟩
  | cons e rest ih =>
    intro s
    have h := ih (applyKeyEffect stripSet s e)
    cases e <;> simpa [applyKeyEffect] using h

/-- Pointwise description of `TabCtrl_OnSelChanged`'s result on an
arbitrary state: return value, posted hide target, untouched fields, the
new visible-page record, and the visibility map case by case. -/
theorem selChanged_spec (t : TCState) :
    (TabCtrl_OnSelChanged t).handled = true
    ∧ (TabCtrl_OnSelChanged t).postedHideTo = t.hVisiblePage
    ∧ (TabCtrl_OnSelChanged t).state.itemCount = t.itemCount
    ∧ (TabCtrl_OnSelChanged t).state.curSel = t.curSel
    ∧ (TabCtrl_OnSelChanged t).state.hTabPages = t.hTabPages
    ∧ (TabCtrl_OnSelChanged t).state.hVisiblePage
        = t.hTabPages.getD t.curSel.toNat 0
    ∧ (TabCtrl_OnSelChanged t).state.visible
        (t.hTabPages.getD t.curSel.toNat 0) = true
    ∧ (∀ h, h ≠ t.hTabPages.getD t.curSel.toNat 0 → h = t.hVisiblePage →
        (TabCtrl_OnSelChanged t).state.visible h = false)
    ∧ (∀ h, h ≠ t.hTabPages.getD t.curSel.toNat 0 → h ≠ t.hVisiblePage →
        (TabCtrl_OnSelChanged t).state.visible h = t.visible h) := by
  refine ⟨rfl, rfl, rfl, rfl, rfl, rfl, ?_, ?_, ?_⟩
  · show (if t.hTabPages.getD t.curSel.toNat 0 = t.hTabPages.getD t.curSel.toNat 0
        then true
        else if t.hTabPages.getD t.curSel.toNat 0 = t.hVisiblePage then false
        else t.visible (t.hTabPages.getD t.curSel.toNat 0)) = true
    rw [if_pos rfl]
  · intro h hp ho
    show (if h = t.hTabPages.getD t.curSel.toNat 0 then true
        else if h = t.hVisiblePage then false else t.visible h) = false
    rw [if_neg hp, if_pos ho]
  · intro h hp ho
    show (if h = t.hTabPages.getD t.curSel.toNat 0 then true
        else if h = t.hVisiblePage then false else t.visible h) = t.visible h
    rw [if_neg hp, if_neg ho]

/-- C4: every `TCN_KEYDOWN` notification — whatever the key, including keys
the navigation handler ignores — falls through to `TabCtrl_OnSelChanged`:
the result is handled (`TRUE`), the became-hidden notification is posted to
the previously recorded visible page, the page list is unchanged, the new
recorded visible page is the page-list entry at the strip's (post-key)
current selection and it is shown, the old visible page is hidden when it
differs, and every notification code other than `TCN_KEYDOWN` and
`TCN_SELCHANGE` leaves the state untouched and returns `FALSE`. -/
theorem C4_keydown_falls_through_to_selchange (stripSet : Int → Int → Int)
    (verticalTabs : Bool) (s : TCState) (wVKey : Nat) (out : NotifyOut)
    (hout : out = Notify stripSet verticalTabs s TCN_KEYDOWN wVKey) :
    out.handled = true
    ∧ out.postedHideTo = some s.hVisiblePage
    ∧ out.state.hTabPages = s.hTabPages
    ∧ out.state.hVisiblePage = out.state.hTabPages.getD out.state.curSel.toNat 0
    ∧ out.state.visible out.state.hVisiblePage = true
    ∧ (s.hVisiblePage ≠ out.state.hVisiblePage →
        out.state.visible s.hVisiblePage = false)
    ∧ (∀ c, c ≠ TCN_KEYDOWN → c ≠ TCN_SELCHANGE →
        Notify stripSet verticalTabs s c wVKey = ⟨s, [], none, false⟩) := by
  obtain ⟨hp, hv, hic, hvis⟩ := foldl_applyKeyEffect_fields stripSet
    (TabCtrl_OnKeyDown verticalTabs (fun i => s.hTabPages.getD i.toNat 0)
      s.itemCount s.curSel wVKey) s
  have hN : Notify stripSet verticalTabs s TCN_KEYDOWN wVKey
      = ⟨(TabCtrl_OnSelChanged (List.foldl (applyKeyEffect stripSet) s
            (TabCtrl_OnKeyDown verticalTabs (fun i => s.hTabPages.getD i.toNat 0)
              s.itemCount s.curSel wVKey))).state,
         TabCtrl_OnKeyDown verticalTabs (fun i => s.hTabPages.getD i.toNat 0)
           s.itemCount s.curSel wVKey,
         some (TabCtrl_OnSelChanged (List.foldl (applyKeyEffect stripSet) s
            (TabCtrl_OnKeyDown verticalTabs (fun i => s.hTabPages.getD i.toNat 0)
              s.itemCount s.curSel wVKey))).postedHideTo,
         (TabCtrl_OnSelChanged (List.foldl (applyKeyEffect stripSet) s
            (TabCtrl_OnKeyDown verticalTabs (fun i => s.hTabPages.getD i.toNat 0)
              s.itemCount s.curSel wVKey))).handled⟩ := rfl
  obtain ⟨hh, hph, hsic, hscs, hsp, hsv, hvt, hvf, hvk⟩ :=
    selChanged_spec (List.foldl (applyKeyEffect stripSet) s
      (TabCtrl_OnKeyDown verticalTabs (fun i => s.hTabPages.getD i.toNat 0)
        s.itemCount s.curSel wVKey))
  subst hout
  rw [hN]
  refine ⟨hh, by rw [hph, hv], by rw [hsp, hp], by rw [hsv, hsp, hscs], ?_, ?_, ?_⟩
  · rw [hsv]
    exact hvt
  · intro hne
    rw [hsv] at hne
    exact hvf s.hVisiblePage hne hv.symm
  · intro c hc1 hc2
    simp [Notify, hc1, hc2]

/-- C4 witness: on the concrete two-page state, a `TCN_KEYDOWN` carrying a
next-direction key is handled, posts the hide notification to page 10, and
an unrelated notification code (0) is not handled. -/
theorem C4_keydown_falls_through_to_selchange_witness :
    (Notify (fun _ i => i) false exState TCN_KEYDOWN VK_RIGHT).handled = true
    ∧ (Notify (fun _ i => i) false exState TCN_KEYDOWN VK_RIGHT).postedHideTo
        = some exState.hVisiblePage
    ∧ Notify (fun _ i => i) false exState 0 VK_RIGHT
        = ⟨exState, [], none, false⟩ :=
  have h := C4_keydown_falls_through_to_selchange (fun _ i => i) false exState
    VK_RIGHT (Notify (fun _ i => i) false exState TCN_KEYDOWN VK_RIGHT) rfl
  ⟨h.1, h.2.1, h.2.2.2.2.2.2 0 (by decide) (by decide)⟩

/-- C5: from any state satisfying the one-visible-page invariant, with the
strip selection in range, running `TabCtrl_OnSelChanged` twice in a row
(the selection index unchanged in between, as the handler never writes it)
re-establishes the invariant with the page-list entry at the selection
index as the unique visible page: the visible-page reference equals that
entry, every other listed page is hidden, and in particular the previously
visible page is hidden whenever it differs. -/
theorem C5_selchanged_idempotent (s : TCState)
    (hinv : VisInv s) (hsel : 0 ≤ s.curSel)
    (hlt : s.curSel.toNat < s.hTabPages.length)
    (s1 s2 : TCState)
    (h1 : s1 = (TabCtrl_OnSelChanged s).state)
    (h2 : s2 = (TabCtrl_OnSelChanged s1).state) :
    VisInv s2
    ∧ s2.hVisiblePage = s.hTabPages.getD s.curSel.toNat 0
    ∧ (∀ h, h ∈ s.hTabPages → h ≠ s2.hVisiblePage → s2.visible h = false)
    ∧ (s.hVisiblePage ≠ s2.hVisiblePage → s2.visible s.hVisiblePage = false)
    ∧ s1.hVisiblePage = s2.hVisiblePage := by
  obtain ⟨hmem, hvis⟩ := hinv
  have hpm : s.hTabPages.getD s.curSel.toNat 0 ∈ s.hTabPages := by
    rw [List.getD_eq_getElem s.hTabPages 0 hlt]
    exact List.getElem_mem hlt
  obtain ⟨-, -, -, hscs, hsp, hsv, hvt, hvf, hvk⟩ := selChanged_spec s
  subst h1
  obtain ⟨-, -, -, -, hsp2, hsv2, hvt2, hvf2, hvk2⟩ :=
    selChanged_spec (TabCtrl_OnSelChanged s).state
  subst h2
  -- the second call computes the same new page as the first
  have hpage2 : (TabCtrl_OnSelChanged s).state.hTabPages.getD
      (TabCtrl_OnSelChanged s).state.curSel.toNat 0
      = s.hTabPages.getD s.curSel.toNat 0 := by
    rw [hsp, hscs]
  rw [hpage2] at hsv2 hvt2 hvf2 hvk2
  -- auxiliary: after the second call, any listed page other than the new
  -- page is hidden
  have hhide : ∀ h, h ∈ s.hTabPages → h ≠ s.hTabPages.getD s.curSel.toNat 0 →
      (TabCtrl_OnSelChanged (TabCtrl_OnSelChanged s).state).state.visible h
        = false := by
    intro h hm hne
    by_cases ho : h = (TabCtrl_OnSelChanged s).state.hVisiblePage
    · exact hvf2 h hne ho
    · rw [hvk2 h hne ho]
      by_cases ho1 : h = s.hVisiblePage
      · exact hvf h hne ho1
      · rw [hvk h hne ho1]
        have := hvis h hm
        rcases Bool.eq_false_or_eq_true (s.visible h) with hb | hb
        · exact absurd (this.mp hb) ho1
        · exact hb
  refine ⟨⟨?_, ?_⟩, ?_, ?_, ?_, ?_⟩
  · rw [hsv2, hsp2, hsp]
    exact hpm
  · intro h hm
    rw [hsp2, hsp] at hm
    rw [hsv2]
    constructor
    · intro hvtrue
      by_contra hne
      rw [hhide h hm hne] at hvtrue
      exact Bool.false_ne_true hvtrue
    · intro he
      rw [he]
      exact hvt2
  · exact hsv2
  · intro h hm hne
    rw [hsv2] at hne
    exact hhide h hm hne
  · intro hne
    rw [hsv2] at hne
    exact hhide s.hVisiblePage hmem hne
  · rw [hsv, hsv2]

/-- C5 witness: on the concrete two-page state with selection 0, two
consecutive selection-change invocations leave page 10 as the recorded
visible page. -/
theorem C5_selchanged_idempotent_witness :
    ((TabCtrl_OnSelChanged (TabCtrl_OnSelChanged exState).state).state).hVisiblePage
      = 10 := by
  have hinv : VisInv exState := by
    refine ⟨by simp [exState], ?_⟩
    intro h hm
    simp [exState]
  exact (C5_selchanged_idempotent exState hinv (by decide) (by decide)
    _ _ rfl rfl).2.1

/-- C6: center placement keeps the page's natural size; on an axis where
the page is strictly smaller than the target the origin is the target's
origin plus half the difference (integer division) — which places the page
symmetrically about the target's center within one unit of rounding and
never left/above the target's origin; on an axis where the page is equal or
larger the origin is exactly the target's origin. -/
theorem C6_center_placement (rect pageClient : Rect) (p : Placement)
    (hp : p = CenterTabPage rect pageClient) (w h : Int)
    (hw : w = pageClient.right - pageClient.left)
    (hh : h = pageClient.bottom - pageClient.top) :
    p.cx = w ∧ p.cy = h
    ∧ (w < rect.right → p.x = rect.left + (rect.right - w) / 2
        ∧ p.x - rect.left ≤ (rect.left + rect.right) - (p.x + w)
        ∧ (rect.left + rect.right) - (p.x + w) ≤ (p.x - rect.left) + 1
        ∧ rect.left ≤ p.x)
    ∧ (rect.right ≤ w → p.x = rect.left)
    ∧ (h < rect.bottom → p.y = rect.top + (rect.bottom - h) / 2
        ∧ p.y - rect.top ≤ (rect.top + rect.bottom) - (p.y + h)
        ∧ (rect.top + rect.bottom) - (p.y + h) ≤ (p.y - rect.top) + 1
        ∧ rect.top ≤ p.y)
    ∧ (rect.bottom ≤ h → p.y = rect.top) := by
  subst hp
  subst hw
  subst hh
  refine ⟨rfl, rfl, ?_, ?_, ?_, ?_⟩
  · intro hlt
    have hx : (CenterTabPage rect pageClient).x
        = rect.left + (rect.right - (pageClient.right - pageClient.left)) / 2 := by
      show (if pageClient.right - pageClient.left < rect.right
          then rect.left + (rect.right - (pageClient.right - pageClient.left)) / 2
          else rect.left)
        = rect.left + (rect.right - (pageClient.right - pageClient.left)) / 2
      rw [if_pos hlt]
    refine ⟨hx, ?_, ?_, ?_⟩ <;> rw [hx] <;> omega
  · intro hge
    show (if pageClient.right - pageClient.left < rect.right
        then rect.left + (rect.right - (pageClient.right - pageClient.left)) / 2
        else rect.left) = rect.left
    rw [if_neg (not_lt.mpr hge)]
  · intro hlt
    have hy : (CenterTabPage rect pageClient).y
        = rect.top + (rect.bottom - (pageClient.bottom - pageClient.top)) / 2 := by
      show (if pageClient.bottom - pageClient.top < rect.bottom
          then rect.top + (rect.bottom - (pageClient.bottom - pageClient.top)) / 2
          else rect.top)
        = rect.top + (rect.bottom - (pageClient.bottom - pageClient.top)) / 2
      rw [if_pos hlt]
    refine ⟨hy, ?_, ?_, ?_⟩ <;> rw [hy] <;> omega
  · intro hge
    show (if pageClient.bottom - pageClient.top < rect.bottom
        then rect.top + (rect.bottom - (pageClient.bottom - pageClient.top)) / 2
        else rect.top) = rect.top
    rw [if_neg (not_lt.mpr hge)]

/-- C6 witness: a 30-wide page in a 100-wide target lands at the target's
origin plus half the slack. -/
theorem C6_center_placement_witness :
    (CenterTabPage ⟨0, 0, 100, 50⟩ ⟨0, 0, 30, 20⟩).x = 0 + (100 - 30) / 2 :=
  ((C6_center_placement ⟨0, 0, 100, 50⟩ ⟨0, 0, 30, 20⟩ _ rfl 30 20 rfl rfl).2.2.1
    (by decide)).1

/-- C7: stretch placement produces exactly the target rectangle's origin
and dimensions, independent of the page's natural size (which
`StretchTabPage` never reads). -/
theorem C7_stretch_placement (rect : Rect) :
    (StretchTabPage rect).x = rect.left
    ∧ (StretchTabPage rect).y = rect.top
    ∧ (StretchTabPage rect).cx = rect.right
    ∧ (StretchTabPage rect).cy = rect.bottom :=
  ⟨rfl, rfl, rfl, rfl⟩

/-- Counting a null-terminated template list yields the number of entries
before the terminator, whatever follows it. -/
theorem countTemplates_terminated (ts : List Nat) (junk : List (Option Nat)) :
    countTemplates (ts.map some ++ none :: junk) = ts.length := by
  induction ts with
  | nil => rfl
  | cons t rest ih => simpa [countTemplates] using ih

/-- Closed form of the construction loop: pages `alloc 0 .. alloc (n-1)` in
order, labels `tabNames 0 .. tabNames (n-1)` in order, and one placement
call of the configured kind per page. -/
theorem buildPages_spec (tabNames : Nat → String) (alloc : Nat → HWND)
    (fStretch : Bool) :
    ∀ n, (buildPages tabNames alloc fStretch n).hTabPages = (List.range n).map alloc
      ∧ (buildPages tabNames alloc fStretch n).insertedLabels
          = (List.range n).map tabNames
      ∧ (buildPages tabNames alloc fStretch n).placementCalls
          = List.replicate n
              (if fStretch then PlaceKind.stretchCall else PlaceKind.centerCall) := by
  intro n
  induction n with
  | zero => exact ⟨rfl, rfl, rfl⟩
  | succ k ih =>
    obtain ⟨h1, h2, h3⟩ := ih
    refine ⟨?_, ?_, ?_⟩
    · simp [buildPages, h1, List.range_succ]
    · simp [buildPages, h2, List.range_succ]
    · simp [buildPages, h3, List.replicate_succ']

/-- C8: constructing from a null-terminated template list with `n` non-null
entries (page handles allocated injectively, as distinct windows are)
yields a page-handle list of length `n`, `n` tab items inserted in label
order, one placement call of the configured policy per page, the stretch
flag recorded, the page at index 0 recorded as the visible page, and only
that page visible among the created pages. -/
theorem C8_construct (tabNames : Nat → String) (ts : List Nat)
    (junk : List (Option Nat)) (alloc : Nat → HWND) (fStretch : Bool)
    (hinj : Function.Injective alloc) (tc : ConstructedTC)
    (htc : tc = New_TabControl tabNames (ts.map some ++ none :: junk)
      alloc fStretch) :
    tc.tabPageCount = ts.length
    ∧ tc.hTabPages.length = ts.length
    ∧ tc.hTabPages = (List.range ts.length).map alloc
    ∧ tc.insertedLabels = (List.range ts.length).map tabNames
    ∧ tc.placementCalls = List.replicate ts.length
        (if fStretch then PlaceKind.stretchCall else PlaceKind.centerCall)
    ∧ tc.blStretchTabs = fStretch
    ∧ tc.hVisiblePage = tc.hTabPages.getD 0 0
    ∧ (∀ i, i < ts.length →
        (tc.visible (tc.hTabPages.getD i 0) = true ↔ i = 0)) := by
  subst htc
  have hct := countTemplates_terminated ts junk
  obtain ⟨h1, h2, h3⟩ := buildPages_spec tabNames alloc fStretch
    (countTemplates (ts.map some ++ none :: junk))
  have hpages : (New_TabControl tabNames (ts.map some ++ none :: junk)
      alloc fStretch).hTabPages = (List.range ts.length).map alloc :=
    h1.trans (by rw [hct])
  have hlabels : (New_TabControl tabNames (ts.map some ++ none :: junk)
      alloc fStretch).insertedLabels = (List.range ts.length).map tabNames :=
    h2.trans (by rw [hct])
  have hplace : (New_TabControl tabNames (ts.map some ++ none :: junk)
      alloc fStretch).placementCalls = List.replicate ts.length
        (if fStretch then PlaceKind.stretchCall else PlaceKind.centerCall) :=
    h3.trans (by rw [hct])
  have hvisdef : (New_TabControl tabNames (ts.map some ++ none :: junk)
      alloc fStretch).visible
      = fun h => decide (h = (New_TabControl tabNames
          (ts.map some ++ none :: junk) alloc fStretch).hTabPages.getD 0 0) := rfl
  refine ⟨hct, ?_, hpages, hlabels, hplace, rfl, rfl, ?_⟩
  · rw [hpages]
    simp
  · intro i hi
    have hn0 : 0 < ts.length := Nat.lt_of_le_of_lt (Nat.zero_le i) hi
    have hleni : i < ((List.range ts.length).map alloc).length := by
      simpa using hi
    have hlen0 : 0 < ((List.range ts.length).map alloc).length := by
      simpa using hn0
    have hgi : ((List.range ts.length).map alloc).getD i 0 = alloc i := by
      rw [List.getD_eq_getElem _ 0 hleni]
      simp
    have hg0 : ((List.range ts.length).map alloc).getD 0 0 = alloc 0 := by
      rw [List.getD_eq_getElem _ 0 hlen0]
      simp
    simp only [hvisdef, hpages, hgi, hg0, decide_eq_true_eq]
    constructor
    · intro he
      exact hinj he
    · intro he
      rw [he]

/-- C8 witness: constructing with three templates and labels yields a count
of 3, and the page at index 1 is not the visible one. -/
theorem C8_construct_witness :
    (New_TabControl (fun _ => "t") [some 5, some 6, some 7, none]
        (fun a => a) false).tabPageCount = 3
    ∧ ((New_TabControl (fun _ => "t") [some 5, some 6, some 7, none]
          (fun a => a) false).visible
        ((New_TabControl (fun _ => "t") [some 5, some 6, some 7, none]
            (fun a => a) false).hTabPages.getD 1 0) = true ↔ (1 : Nat) = 0) :=
  have hc := C8_construct (fun _ => "t") [5, 6, 7] [] (fun a => a) false
    (fun a b hab => hab)
    (New_TabControl (fun _ => "t") [some 5, some 6, some 7, none]
      (fun a => a) false) rfl
  ⟨hc.1, hc.2.2.2.2.2.2.2 1 (by decide)⟩

end TabCtrl
